import Mathlib

/-
Verification of the conversational state machine of the AI-tutor chat bot
(src/main.py).  The Python handlers are embedded shallowly: the Firestore
document store becomes an association list keyed by user identifier, the
per-user `context.user_data` session becomes an explicit `Session` record,
handler replies become an inductive `Msg` tag per distinct user-visible
message, and the return value of a conversation handler becomes `HandlerRet`.
External collaborators (the document store write path, the completion
service) are nondeterministic in the Python code; their outcomes are passed
in as explicit parameters, resolved per event.
-/

namespace AiTutorBot

/-- A user profile document, as written by `get_email_and_register`:
`{'email': ..., 'telegram_username': ..., 'subjects': [...]}`. -/
structure UserProfile where
  email : String
  telegram_username : String
  subjects : List String
deriving DecidableEq

/-- The `users` collection of the document store, keyed by the stringified
user identifier. -/
abbrev Store := List (String × UserProfile)

/-- `db.collection(users).document(id).get()` — fetch a document by key. -/
def Store.getById (st : Store) (id : String) : Option UserProfile :=
  (st.find? (fun kv => kv.1 == id)).map (fun kv => kv.2)

/-- `db.collection(users).document(id).set(p)` — create or replace a
document. -/
def Store.setDoc (st : Store) (id : String) (p : UserProfile) : Store :=
  if st.any (fun kv => kv.1 == id) then
    st.map (fun kv => if kv.1 == id then (id, p) else kv)
  else
    st ++ [(id, p)]

/-- `db.collection(users).where(email, ==, e).limit(1).stream()` — the
registration duplicate check: does any document hold exactly this email? -/
def Store.existsEmail (st : Store) (e : String) : Bool :=
  st.any (fun kv => kv.2.email == e)

/-- `db.collection(users).document(id).update({subjects: f})` — update the
subjects array of an existing document.  A Firestore update on a missing
document raises; in reachable states the document exists, and the model
leaves a missing document untouched. -/
def Store.updateSubjects (st : Store) (id : String) (f : List String → List String) : Store :=
  st.map (fun kv => if kv.1 == id then (kv.1, { kv.2 with subjects := f kv.2.subjects }) else kv)

/-- `firestore.ArrayUnion([s])` — append `s` unless already present. -/
def arrayUnion (l : List String) (s : String) : List String :=
  if s ∈ l then l else l ++ [s]

/-- `firestore.ArrayRemove([s])` — remove every occurrence of `s`. -/
def arrayRemove (l : List String) (s : String) : List String :=
  l.filter (fun x => x ≠ s)

/-- Python `str.lower()` as used on emails: lower-case every character.
Defined structurally over the character list (extensionally the library
`String.toLower`, whose `mapAux` recursion the kernel cannot evaluate) so
that concrete runs compute. -/
def lower (s : String) : String :=
  String.mk (s.data.map Char.toLower)

/-- The per-user `context.user_data` dictionary.  An absent key is the
field default: the bot tests `user_data.get(is_logged_in)` for truthiness
and `tutor_subject not in user_data` for presence. -/
structure Session where
  is_logged_in : Bool := false
  tutor_subject : Option String := none
  chat_session : Option Nat := none
deriving DecidableEq

/-- Every distinct user-visible reply the handlers can emit, with the data
that varies.  Keyboard-bearing prompts carry the options they present. -/
inductive Msg where
  | loginRequired
  | welcomeBackMenu
  | pleaseLogin
  | pleaseRegister
  | loggedOut
  | enterRegEmail
  | alreadyRegistered
  | registrationComplete
  | saveFailed
  | alreadyLoggedIn
  | enterLoginEmail
  | loginSuccess
  | loginFailed
  | canceledMenu
  | canceledPlain
  | allSubjectsAdded
  | chooseSubjectToAdd (options : List String)
  | noSubjects
  | yourSubjects (subjects : List String)
  | addSubjectFirstQuiz
  | quizSubjectPrompt (options : List String)
  | addSubjectFirstTutor
  | tutorSubjectPrompt (options : List String)
  | addedSubject (s : String)
  | removedNoneLeft (s : String)
  | removedUpdated (s : String) (remaining : List String)
  | askYourQuestion (s : String)
  | generatingQuiz (s : String)
  | quizText (t : String)
  | quizReady (s : String)
  | initializingTutor
  | tutorAnswer (t : String)
  | nowChatting
  | aiConnectFailed
  | doneConfirm
deriving DecidableEq

/-- The value a handler returns to the conversation machinery:
`ConversationHandler.END`, one of the state tokens (`GET_EMAIL_REG`,
`CHECK_EMAIL_LOGIN`, `T_SELECT_SUBJECT`, `T_ASK_QUESTION`, `T_TUTORING`),
or `None` for a plain handler. -/
inductive HandlerRet where
  | endConv
  | getEmailReg
  | checkEmailLogin
  | tSelectSubject
  | tAskQuestion
  | tTutoring
  | noRet
deriving DecidableEq

/-- The full effect of one handler invocation: the updated session, the
updated store, the replies emitted in order, and the returned value. -/
structure HResult where
  session : Session
  store : Store
  replies : List Msg
  ret : HandlerRet
deriving DecidableEq

/-- The `login_required` decorator (src/main.py lines 73-81): if the
session flag `is_logged_in` is truthy, invoke the wrapped handler with the
same arguments and return its result; otherwise reply that login is
required and return `ConversationHandler.END`. -/
def login_required (func : Session → Store → HResult) (s : Session) (st : Store) : HResult :=
  if s.is_logged_in then func s st
  else { session := s, store := st, replies := [Msg.loginRequired], ret := HandlerRet.endConv }

/-- `start_registration` (lines 124-126): prompt for the email and enter
the registration await-email state. -/
def start_registration (s : Session) (st : Store) : HResult :=
  { session := s, store := st, replies := [Msg.enterRegEmail], ret := HandlerRet.getEmailReg }

/-- `get_email_and_register` (lines 128-140): lower-case the input, reject
if any document already holds that email, otherwise create the profile
`{email, telegram_username (or N/A), subjects: []}` keyed by the caller
identifier.  `storeOk` resolves whether the store write raises. -/
def get_email_and_register (text : String) (user_id : String) (username : Option String)
    (storeOk : Bool) (s : Session) (st : Store) : HResult :=
  let email := lower text
  if st.existsEmail email then
    { session := s, store := st, replies := [Msg.alreadyRegistered], ret := HandlerRet.endConv }
  else if storeOk then
    { session := s,
      store := st.setDoc user_id
        { email := email, telegram_username := username.getD "N/A", subjects := [] },
      replies := [Msg.registrationComplete], ret := HandlerRet.endConv }
  else
    { session := s, store := st, replies := [Msg.saveFailed], ret := HandlerRet.endConv }

/-- `start_login` (lines 143-148): already-logged-in short-circuit, else
prompt for the email and enter the login await-email state. -/
def start_login (s : Session) (st : Store) : HResult :=
  if s.is_logged_in then
    { session := s, store := st, replies := [Msg.alreadyLoggedIn], ret := HandlerRet.endConv }
  else
    { session := s, store := st, replies := [Msg.enterLoginEmail], ret := HandlerRet.checkEmailLogin }

/-- `check_email_and_login` (lines 150-158): fetch the caller document by
identifier; succeed, setting `is_logged_in`, exactly when it exists and its
stored email equals the lower-cased input. -/
def check_email_and_login (text : String) (user_id : String) (s : Session) (st : Store) : HResult :=
  let user_email_input := lower text
  match st.getById user_id with
  | some doc =>
      if user_email_input == doc.email then
        { session := { s with is_logged_in := true }, store := st,
          replies := [Msg.loginSuccess], ret := HandlerRet.endConv }
      else
        { session := s, store := st, replies := [Msg.loginFailed], ret := HandlerRet.endConv }
  | none =>
      { session := s, store := st, replies := [Msg.loginFailed], ret := HandlerRet.endConv }

/-- `cancel_conversation` (lines 160-165): acknowledge, with the main menu
when logged in. -/
def cancel_conversation (s : Session) (st : Store) : HResult :=
  if s.is_logged_in then
    { session := s, store := st, replies := [Msg.canceledMenu], ret := HandlerRet.endConv }
  else
    { session := s, store := st, replies := [Msg.canceledPlain], ret := HandlerRet.endConv }

/-- `AVAILABLE_SUBJECTS` (line 67). -/
def AVAILABLE_SUBJECTS : List String := ["ICT", "English", "Math", "Physics"]

/-- `get_user_subjects` (lines 169-175): the subjects array of the caller
document, or `[]` when the document is missing (or the store is down). -/
def get_user_subjects (user_id : String) (st : Store) : List String :=
  match st.getById user_id with
  | some doc => doc.subjects
  | none => []

/-- `add_subject_command` (lines 177-182, inner handler under the gate):
offer each catalog subject not yet held. -/
def add_subject_command (user_id : String) (s : Session) (st : Store) : HResult :=
  let current_subjects := get_user_subjects user_id st
  let keyboard := AVAILABLE_SUBJECTS.filter (fun x => x ∉ current_subjects)
  if keyboard.isEmpty then
    { session := s, store := st, replies := [Msg.allSubjectsAdded], ret := HandlerRet.noRet }
  else
    { session := s, store := st, replies := [Msg.chooseSubjectToAdd keyboard], ret := HandlerRet.noRet }

/-- `my_subjects_command` (lines 184-190, inner handler under the gate):
list the current subjects, each with a removal control. -/
def my_subjects_command (user_id : String) (s : Session) (st : Store) : HResult :=
  let subjects := get_user_subjects user_id st
  if subjects.isEmpty then
    { session := s, store := st, replies := [Msg.noSubjects], ret := HandlerRet.noRet }
  else
    { session := s, store := st, replies := [Msg.yourSubjects subjects], ret := HandlerRet.noRet }

/-- `quiz_me_command` (lines 193-202, inner handler under the gate): with
no subjects, short-circuit to the add-a-subject-first message; otherwise
offer the subjects as quiz options. -/
def quiz_me_command (user_id : String) (s : Session) (st : Store) : HResult :=
  let subjects := get_user_subjects user_id st
  if subjects.isEmpty then
    { session := s, store := st, replies := [Msg.addSubjectFirstQuiz], ret := HandlerRet.noRet }
  else
    { session := s, store := st, replies := [Msg.quizSubjectPrompt subjects], ret := HandlerRet.noRet }

/-- `start_tutor_session` (lines 206-215, inner handler under the gate):
with no subjects, short-circuit and end; otherwise offer the subjects as
tutor options and enter the select-subject state. -/
def start_tutor_session (user_id : String) (s : Session) (st : Store) : HResult :=
  let subjects := get_user_subjects user_id st
  if subjects.isEmpty then
    { session := s, store := st, replies := [Msg.addSubjectFirstTutor], ret := HandlerRet.endConv }
  else
    { session := s, store := st, replies := [Msg.tutorSubjectPrompt subjects],
      ret := HandlerRet.tSelectSubject }

/-- One message of the priming history handed to the completion service. -/
structure ChatMessage where
  role : String
  parts : List String
deriving DecidableEq

/-- The user-role persona prompt of `start_ai_conversation` (lines 227-238). -/
def tutor_persona_prompt (subject : String) : String :=
  "Your identity: You are a highly specialized AI Tutor for the IGCSE syllabus. " ++
  "Your ONLY focus is the IGCSE curriculum for the subject: " ++ subject ++ ".\n" ++
  "Your rules:\n" ++
  "1. All your explanations, examples, and answers MUST be strictly relevant to the IGCSE syllabus.\n" ++
  "2. If a student asks a question outside this scope, gently guide them back by saying something like, \"That\x27s an interesting question, but for the IGCSE syllabus, we should focus on...\"\n" ++
  "3. Use terminology and examples that are common in IGCSE textbooks and exams.\n" ++
  "4. Be patient, encouraging, and clear.\n" ++
  "Start our conversation by introducing yourself as their personal IGCSE tutor for " ++ subject ++ "."

/-- The pre-supplied model-role reply of `start_ai_conversation` (line 240). -/
def tutor_persona_intro (subject : String) : String :=
  "Hello! I am your personal IGCSE Tutor for " ++ subject ++
  ". I\x27m ready to help you with any questions you have about the syllabus. " ++
  "What topic can I help you understand today?"

/-- The two-message priming history of `start_ai_conversation` (lines 226-241). -/
def tutor_chat_history (subject : String) : List ChatMessage :=
  [ { role := "user", parts := [tutor_persona_prompt subject] },
    { role := "model", parts := [tutor_persona_intro subject] } ]

/-- `start_ai_conversation` (lines 218-256): announce initialization, start
a chat session primed with the persona history, send the first question,
store the handle, relay the answer and enter the tutoring state.  Any
failure (`startRes = none` for `start_chat`, `sendRes = none` for
`send_message_async`) lands in the except branch: a generic failure reply
and `ConversationHandler.END`; the handle assignment at line 248 sits after
the send, so no handle is stored on either failure. -/
def start_ai_conversation (startRes : Option Nat) (sendRes : Option String)
    (_text : String) (s : Session) (st : Store) : HResult :=
  let _subject := (s.tutor_subject).getD "this subject"
  let _chat_history := tutor_chat_history _subject
  match startRes with
  | none =>
      { session := s, store := st, replies := [Msg.initializingTutor, Msg.aiConnectFailed],
        ret := HandlerRet.endConv }
  | some hdl =>
      match sendRes with
      | none =>
          { session := s, store := st, replies := [Msg.initializingTutor, Msg.aiConnectFailed],
            ret := HandlerRet.endConv }
      | some ans =>
          { session := { s with chat_session := some hdl }, store := st,
            replies := [Msg.initializingTutor, Msg.tutorAnswer ans, Msg.nowChatting],
            ret := HandlerRet.tTutoring }

/-- The action tag and payload decoded from `query.data.split(_, 1)` in
`button_handler` (line 262). -/
inductive BtnAction where
  | add (data : String)
  | remove (data : String)
  | tutor (data : String)
  | quiz (data : String)
deriving DecidableEq

/-- `button_handler` (lines 259-287), the universal selection dispatcher.
`quizText` resolves the return value of `generate_quiz_from_ai` (which
catches its own failures and returns an error string).  The tutor branch
returns `T_ASK_QUESTION` directly (line 278); the other branches fall
through to the trailing check on `tutor_subject` (lines 286-287). -/
def button_handler (ev : BtnAction) (user_id : String) (quizText : String)
    (s : Session) (st : Store) : HResult :=
  match ev with
  | BtnAction.add data =>
      let st' := st.updateSubjects user_id (fun subs => arrayUnion subs data)
      { session := s, store := st', replies := [Msg.addedSubject data],
        ret := if s.tutor_subject = none then HandlerRet.endConv else HandlerRet.tAskQuestion }
  | BtnAction.remove data =>
      let st' := st.updateSubjects user_id (fun subs => arrayRemove subs data)
      let new_subjects := get_user_subjects user_id st'
      if new_subjects.isEmpty then
        { session := s, store := st', replies := [Msg.removedNoneLeft data],
          ret := if s.tutor_subject = none then HandlerRet.endConv else HandlerRet.tAskQuestion }
      else
        { session := s, store := st', replies := [Msg.removedUpdated data new_subjects],
          ret := if s.tutor_subject = none then HandlerRet.endConv else HandlerRet.tAskQuestion }
  | BtnAction.tutor data =>
      { session := { s with tutor_subject := some data }, store := st,
        replies := [Msg.askYourQuestion data], ret := HandlerRet.tAskQuestion }
  | BtnAction.quiz data =>
      { session := s, store := st,
        replies := [Msg.generatingQuiz data, Msg.quizText quizText, Msg.quizReady data],
        ret := if s.tutor_subject = none then HandlerRet.endConv else HandlerRet.tAskQuestion }

/-- Modelled from the spec: `end_tutor_session` is registered as the
`/done` fallback of the tutor conversation in `main` (line 302) but its
definition is absent from src/main.py.  Per the spec it ends the flow,
discards the chat session handle and the selected subject, returns to idle
and replies with a confirmation restoring the main menu. -/
def end_tutor_session (s : Session) (st : Store) : HResult :=
  { session := { s with tutor_subject := none, chat_session := none },
    store := st, replies := [Msg.doneConfirm], ret := HandlerRet.endConv }

/-- Modelled from the spec: `forward_to_ai` is registered for the tutoring
steady state in `main` (line 301) but its definition is absent from
src/main.py.  Per the spec it forwards the text to the stored chat handle
and relays the reply verbatim, remaining in tutoring; on a
completion-service failure the flow terminates to idle with a generic
message. -/
def forward_to_ai (sendRes : Option String) (_text : String) (s : Session) (st : Store) : HResult :=
  match s.chat_session, sendRes with
  | some _, some ans =>
      { session := s, store := st, replies := [Msg.tutorAnswer ans], ret := HandlerRet.tTutoring }
  | _, _ =>
      { session := s, store := st, replies := [Msg.aiConnectFailed], ret := HandlerRet.endConv }

/-- `start_command` (lines 108-117). -/
def start_command (user_id : String) (s : Session) (st : Store) : HResult :=
  if s.is_logged_in then
    { session := s, store := st, replies := [Msg.welcomeBackMenu], ret := HandlerRet.noRet }
  else
    match st.getById user_id with
    | some _ => { session := s, store := st, replies := [Msg.pleaseLogin], ret := HandlerRet.noRet }
    | none => { session := s, store := st, replies := [Msg.pleaseRegister], ret := HandlerRet.noRet }

/-- `logout_command` (lines 119-121): `user_data.clear()` plus a reply. -/
def logout_command (_s : Session) (st : Store) : HResult :=
  { session := {}, store := st, replies := [Msg.loggedOut], ret := HandlerRet.noRet }

/-! ## The dispatch surface of `main` (lines 290-323) as a transition system

One user interacting with the bot.  `main` registers, in order: `/start`,
`/logout`, the registration conversation, the login conversation, the tutor
conversation, `/mysubjects`, `/addsubject`, `/quizme`, the three menu-text
handlers, and last the universal `CallbackQueryHandler` with pattern
`^(add_|remove_|quiz_)`.  The first handler whose filters match consumes
the update; a `ConversationHandler` whose active state has no matching
handler (and whose fallbacks do not match) lets the update fall through,
and entry points are only consulted while that conversation is inactive.
Button-click events are restricted to payloads that some keyboard actually
offered at an earlier point of the interaction (old inline keyboards stay
clickable), which the state tracks in the `presented*` lists. -/

/-- The per-user state of the tutor `ConversationHandler`. -/
inductive TutorState where
  | idle
  | selectSubject
  | askQuestion
  | tutoring
deriving DecidableEq

/-- Global per-user dispatch state: the session, the store, which
conversations are active (the registration and login conversations each
await an email or are idle), and every payload ever offered on an inline
keyboard, per action tag. -/
structure GState where
  userData : Session
  store : Store
  regConv : Bool
  loginConv : Bool
  tutorConv : TutorState
  presentedAdd : List String
  presentedRemove : List String
  presentedTutor : List String
  presentedQuiz : List String
deriving DecidableEq

/-- The initial state: empty session, empty store, no active conversation,
nothing presented. -/
def GState.init : GState :=
  { userData := {}, store := [], regConv := false, loginConv := false,
    tutorConv := TutorState.idle, presentedAdd := [], presentedRemove := [],
    presentedTutor := [], presentedQuiz := [] }

/-- One inbound update.  External outcomes (store write success, completion
service results, generated quiz text) are resolved inside the event. -/
inductive Event where
  | startCmd
  | logoutCmd
  | registerCmd
  | loginCmd
  | cancelCmd
  | mySubjectsCmd
  | addSubjectCmd
  | quizMeCmd
  | tutorCmd
  | doneCmd
  | textMsg (text : String) (storeOk : Bool) (startRes : Option Nat) (sendRes : Option String)
  | clickAdd (data : String)
  | clickRemove (data : String)
  | clickTutor (data : String)
  | clickQuiz (data : String) (quizText : String)
deriving DecidableEq

/-- Record the options of every keyboard-bearing reply into the
corresponding presented list. -/
def updatePresented (σ : GState) (ms : List Msg) : GState :=
  ms.foldl (fun τ m =>
    match m with
    | Msg.chooseSubjectToAdd opts => { τ with presentedAdd := τ.presentedAdd ++ opts }
    | Msg.yourSubjects subs => { τ with presentedRemove := τ.presentedRemove ++ subs }
    | Msg.removedUpdated _ remaining => { τ with presentedRemove := τ.presentedRemove ++ remaining }
    | Msg.tutorSubjectPrompt opts => { τ with presentedTutor := τ.presentedTutor ++ opts }
    | Msg.quizSubjectPrompt opts => { τ with presentedQuiz := τ.presentedQuiz ++ opts }
    | _ => τ) σ

/-- Fold a handler result into the global state: new session, new store,
keyboards recorded.  Conversation-state changes are applied by `step`. -/
def applyH (σ : GState) (r : HResult) : GState :=
  updatePresented { σ with userData := r.session, store := r.store } r.replies

/-- One dispatch step for the single user `user_id` (with Telegram username
`uname`): route the event to the first matching registered handler exactly
as `main` wires them, run the embedded handler, and apply its result. -/
def step (user_id : String) (uname : Option String) (σ : GState) (e : Event) :
    GState × List Msg :=
  match e with
  | Event.startCmd =>
      let r := start_command user_id σ.userData σ.store
      (applyH σ r, r.replies)
  | Event.logoutCmd =>
      let r := logout_command σ.userData σ.store
      (applyH σ r, r.replies)
  | Event.registerCmd =>
      if σ.regConv then (σ, [])
      else
        let r := start_registration σ.userData σ.store
        ({ applyH σ r with regConv := r.ret = HandlerRet.getEmailReg }, r.replies)
  | Event.loginCmd =>
      if σ.loginConv then (σ, [])
      else
        let r := start_login σ.userData σ.store
        ({ applyH σ r with loginConv := r.ret = HandlerRet.checkEmailLogin }, r.replies)
  | Event.cancelCmd =>
      if σ.regConv then
        let r := cancel_conversation σ.userData σ.store
        ({ applyH σ r with regConv := false }, r.replies)
      else if σ.loginConv then
        let r := cancel_conversation σ.userData σ.store
        ({ applyH σ r with loginConv := false }, r.replies)
      else (σ, [])
  | Event.mySubjectsCmd =>
      let r := login_required (my_subjects_command user_id) σ.userData σ.store
      (applyH σ r, r.replies)
  | Event.addSubjectCmd =>
      let r := login_required (add_subject_command user_id) σ.userData σ.store
      (applyH σ r, r.replies)
  | Event.quizMeCmd =>
      let r := login_required (quiz_me_command user_id) σ.userData σ.store
      (applyH σ r, r.replies)
  | Event.tutorCmd =>
      if σ.tutorConv = TutorState.idle then
        let r := login_required (start_tutor_session user_id) σ.userData σ.store
        ({ applyH σ r with
            tutorConv := if r.ret = HandlerRet.tSelectSubject then TutorState.selectSubject
                         else TutorState.idle }, r.replies)
      else (σ, [])
  | Event.doneCmd =>
      if σ.tutorConv = TutorState.idle then (σ, [])
      else
        let r := end_tutor_session σ.userData σ.store
        ({ applyH σ r with tutorConv := TutorState.idle }, r.replies)
  | Event.textMsg text storeOk startRes sendRes =>
      if σ.regConv then
        let r := get_email_and_register text user_id uname storeOk σ.userData σ.store
        ({ applyH σ r with regConv := false }, r.replies)
      else if σ.loginConv then
        let r := check_email_and_login text user_id σ.userData σ.store
        ({ applyH σ r with loginConv := false }, r.replies)
      else
        match σ.tutorConv with
        | TutorState.idle =>
            if text == "🧑‍🏫 Tutor" then
              let r := login_required (start_tutor_session user_id) σ.userData σ.store
              ({ applyH σ r with
                  tutorConv := if r.ret = HandlerRet.tSelectSubject then TutorState.selectSubject
                               else TutorState.idle }, r.replies)
            else if text == "📚 My Subjects" then
              let r := login_required (my_subjects_command user_id) σ.userData σ.store
              (applyH σ r, r.replies)
            else if text == "➕ Add Subject" then
              let r := login_required (add_subject_command user_id) σ.userData σ.store
              (applyH σ r, r.replies)
            else if text == "❓ Quiz Me" then
              let r := login_required (quiz_me_command user_id) σ.userData σ.store
              (applyH σ r, r.replies)
            else (σ, [])
        | TutorState.selectSubject =>
            -- the select-subject state handles only tutor_ callbacks, so text
            -- falls through to the menu handlers registered after the
            -- conversation
            if text == "📚 My Subjects" then
              let r := login_required (my_subjects_command user_id) σ.userData σ.store
              (applyH σ r, r.replies)
            else if text == "➕ Add Subject" then
              let r := login_required (add_subject_command user_id) σ.userData σ.store
              (applyH σ r, r.replies)
            else if text == "❓ Quiz Me" then
              let r := login_required (quiz_me_command user_id) σ.userData σ.store
              (applyH σ r, r.replies)
            else (σ, [])
        | TutorState.askQuestion =>
            let r := start_ai_conversation startRes sendRes text σ.userData σ.store
            ({ applyH σ r with
                tutorConv := if r.ret = HandlerRet.tTutoring then TutorState.tutoring
                             else TutorState.idle }, r.replies)
        | TutorState.tutoring =>
            let r := forward_to_ai sendRes text σ.userData σ.store
            ({ applyH σ r with
                tutorConv := if r.ret = HandlerRet.tTutoring then TutorState.tutoring
                             else TutorState.idle }, r.replies)
  | Event.clickAdd data =>
      if data ∈ σ.presentedAdd then
        let r := button_handler (BtnAction.add data) user_id "" σ.userData σ.store
        (applyH σ r, r.replies)
      else (σ, [])
  | Event.clickRemove data =>
      if data ∈ σ.presentedRemove then
        let r := button_handler (BtnAction.remove data) user_id "" σ.userData σ.store
        (applyH σ r, r.replies)
      else (σ, [])
  | Event.clickTutor data =>
      if σ.tutorConv = TutorState.selectSubject ∧ data ∈ σ.presentedTutor then
        let r := button_handler (BtnAction.tutor data) user_id "" σ.userData σ.store
        ({ applyH σ r with
            tutorConv := if r.ret = HandlerRet.tAskQuestion then TutorState.askQuestion
                         else TutorState.idle }, r.replies)
      else (σ, [])
  | Event.clickQuiz data quizText =>
      if data ∈ σ.presentedQuiz then
        let r := button_handler (BtnAction.quiz data) user_id quizText σ.userData σ.store
        (applyH σ r, r.replies)
      else (σ, [])

/-- Run a whole trace of events from a state. -/
def run (user_id : String) (uname : Option String) (σ : GState) (tr : List Event) : GState :=
  tr.foldl (fun τ e => (step user_id uname τ e).1) σ

/-- All subjects offered by the tutor-option keyboards in a reply list. -/
def collectTutorOpts (ms : List Msg) : List String :=
  ms.foldr (fun m acc =>
    match m with
    | Msg.tutorSubjectPrompt opts => opts ++ acc
    | _ => acc) []

/-- A trace that registers, logs in, adds two subjects, opens the tutor
keyboard, then removes one of the offered subjects via the still-clickable
remove keyboard, and finally clicks the stale tutor button for the removed
subject. -/
def staleTutorClickTrace : List Event :=
  [ Event.registerCmd,
    Event.textMsg "a@b.com" true none none,
    Event.loginCmd,
    Event.textMsg "a@b.com" true none none,
    Event.addSubjectCmd,
    Event.clickAdd "Math",
    Event.clickAdd "Physics",
    Event.tutorCmd,
    Event.mySubjectsCmd,
    Event.clickRemove "Math",
    Event.clickTutor "Math" ]

/-- A benign trace reaching the question-answering state: register, log in,
add a subject, open the tutor keyboard and pick the offered subject. -/
def freshTutorClickTrace : List Event :=
  [ Event.registerCmd,
    Event.textMsg "a@b.com" true none none,
    Event.loginCmd,
    Event.textMsg "a@b.com" true none none,
    Event.addSubjectCmd,
    Event.clickAdd "Math",
    Event.tutorCmd,
    Event.clickTutor "Math" ]

/-- The session invariant behind the amended C8: any recorded selected
tutor subject was offered on some tutor keyboard. -/
def TutorSubjectPresented (σ : GState) : Prop :=
  ∀ subj, σ.userData.tutor_subject = some subj → subj ∈ σ.presentedTutor

/-! ## Theorems -/

/-- C1: the authentication gate.  For every wrapped operation and session:
with `is_logged_in` false the gate replies the login-required rejection and
returns `ConversationHandler.END` without invoking the wrapped operation
(the result does not depend on the wrapped operation at all); with the flag
true it invokes the wrapped operation with identical arguments and returns
its result unchanged. -/
theorem c1_login_required_gate (f g : Session → Store → HResult) (s : Session) (st : Store) :
    login_required f s st =
      (if s.is_logged_in then f s st
       else { session := s, store := st, replies := [Msg.loginRequired],
              ret := HandlerRet.endConv })
  ∧ (s.is_logged_in = false → login_required f s st = login_required g s st) := by
  refine ⟨rfl, fun h => ?_⟩
  simp [login_required, h]

/-- Witness for C1 at a concrete unauthenticated session: the gate result
is independent of the wrapped operation. -/
theorem c1_login_required_gate_witness :
    (({} : Session).is_logged_in = false)
  ∧ login_required (fun s st =>
        { session := s, store := st, replies := [], ret := HandlerRet.noRet }) {} []
      = login_required (fun s st =>
        { session := s, store := st, replies := [Msg.loggedOut], ret := HandlerRet.endConv }) {} [] :=
  ⟨rfl, (c1_login_required_gate _ _ {} []).2 rfl⟩

/-- C2: the login email handler sets the authenticated flag and replies
success exactly when a profile exists under the caller identifier whose
stored email equals the lower-cased input; otherwise it replies failure and
leaves the session unauthenticated. -/
theorem c2_check_email_and_login (text user_id : String) (s : Session) (st : Store) :
    (check_email_and_login text user_id s st =
      if (st.getById user_id).any (fun p => lower text == p.email) then
        { session := { s with is_logged_in := true }, store := st,
          replies := [Msg.loginSuccess], ret := HandlerRet.endConv }
      else
        { session := s, store := st, replies := [Msg.loginFailed], ret := HandlerRet.endConv })
  ∧ (s.is_logged_in = false →
      (((check_email_and_login text user_id s st).session.is_logged_in = true
          ∧ (check_email_and_login text user_id s st).replies = [Msg.loginSuccess])
        ↔ ∃ p, st.getById user_id = some p ∧ p.email = lower text))
  ∧ (s.is_logged_in = false →
      (¬ ∃ p, st.getById user_id = some p ∧ p.email = lower text) →
      (check_email_and_login text user_id s st).session.is_logged_in = false
        ∧ (check_email_and_login text user_id s st).replies = [Msg.loginFailed]) := by
  cases hdoc : st.getById user_id with
  | none => simp [check_email_and_login, hdoc]
  | some doc =>
      by_cases heq : lower text = doc.email
      · simp [check_email_and_login, hdoc, heq]
      · have hne : (lower text == doc.email) = false := by
          simp [heq]
        simp only [check_email_and_login, hdoc, hne, Bool.false_eq_true, if_false]
        refine ⟨by simp [hne], ?_, ?_⟩
        · intro hflag
          simp only [hflag, Bool.false_eq_true, false_and, false_iff, not_exists, not_and,
            Option.some.injEq]
          rintro p rfl h
          exact heq h.symm
        · intro hflag _
          simp [hflag]

/-- Witness for C2 at a concrete input with an empty store: login fails and
the session stays unauthenticated. -/
theorem c2_check_email_and_login_witness :
    (({} : Session).is_logged_in = false)
  ∧ (check_email_and_login "x@y.z" "7" {} []).session.is_logged_in = false
  ∧ (check_email_and_login "x@y.z" "7" {} []).replies = [Msg.loginFailed] := by
  have h := (c2_check_email_and_login "x@y.z" "7" {} []).2.2 rfl (by simp [Store.getById])
  exact ⟨rfl, h.1, h.2⟩

/-- C6: if the completion service fails during chat-session initialization
(`startRes = none`) or during the first question submission
(`sendRes = none`), the first-question handler replies the generic failure
message, returns `ConversationHandler.END`, and stores no chat handle: the
session is left exactly as it was, so a session that held no handle still
holds none. -/
theorem c6_start_ai_conversation_failure (startRes : Option Nat) (sendRes : Option String)
    (text : String) (s : Session) (st : Store)
    (hfail : startRes = none ∨ sendRes = none)
    (h0 : s.chat_session = none) :
    start_ai_conversation startRes sendRes text s st =
      { session := s, store := st, replies := [Msg.initializingTutor, Msg.aiConnectFailed],
        ret := HandlerRet.endConv }
  ∧ (start_ai_conversation startRes sendRes text s st).session.chat_session = none := by
  rcases hfail with h | h
  · subst h
    exact ⟨rfl, h0⟩
  · subst h
    cases startRes <;> exact ⟨rfl, h0⟩

/-- Witness for C6 at a concrete failing send: no handle is stored. -/
theorem c6_start_ai_conversation_failure_witness :
    ((some 0 : Option Nat) = none ∨ (none : Option String) = none)
  ∧ (({} : Session).chat_session = none)
  ∧ start_ai_conversation (some 0) none "q" {} [] =
      { session := {}, store := [], replies := [Msg.initializingTutor, Msg.aiConnectFailed],
        ret := HandlerRet.endConv }
  ∧ (start_ai_conversation (some 0) none "q" {} []).session.chat_session = none := by
  have h := c6_start_ai_conversation_failure (some 0) none "q" {} [] (Or.inr rfl) rfl
  exact ⟨Or.inr rfl, rfl, h.1, h.2⟩

/-- C7: for an authenticated caller whose subject list is empty, both the
tutor entry and the quiz entry reply the add-a-subject-first message and
terminate at once: no option keyboard is sent and the select-subject state
token is not returned. -/
theorem c7_no_subjects_short_circuit (user_id : String) (s : Session) (st : Store)
    (hauth : s.is_logged_in = true)
    (hempty : get_user_subjects user_id st = []) :
    login_required (start_tutor_session user_id) s st =
      { session := s, store := st, replies := [Msg.addSubjectFirstTutor],
        ret := HandlerRet.endConv }
  ∧ login_required (quiz_me_command user_id) s st =
      { session := s, store := st, replies := [Msg.addSubjectFirstQuiz],
        ret := HandlerRet.noRet } := by
  constructor <;>
    simp [login_required, hauth, start_tutor_session, quiz_me_command, hempty]

/-- Witness for C7: a logged-in session over an empty store. -/
theorem c7_no_subjects_short_circuit_witness :
    (({ is_logged_in := true } : Session).is_logged_in = true)
  ∧ (get_user_subjects "7" [] = [])
  ∧ login_required (start_tutor_session "7") { is_logged_in := true } [] =
      { session := { is_logged_in := true }, store := [], replies := [Msg.addSubjectFirstTutor],
        ret := HandlerRet.endConv }
  ∧ login_required (quiz_me_command "7") { is_logged_in := true } [] =
      { session := { is_logged_in := true }, store := [], replies := [Msg.addSubjectFirstQuiz],
        ret := HandlerRet.noRet } := by
  have h := c7_no_subjects_short_circuit "7" { is_logged_in := true } [] rfl rfl
  exact ⟨rfl, rfl, h.1, h.2⟩

/-- Under the invariant that stored emails are lower-case (which
registration itself maintains), the exact-match duplicate query is the
case-insensitive one. -/
theorem existsEmail_lower (st : Store) (text : String)
    (hnorm : ∀ kv ∈ st, lower (kv.2).email = (kv.2).email) :
    st.existsEmail (lower text) = true ↔ ∃ kv ∈ st, lower (kv.2).email = lower text := by
  simp only [Store.existsEmail, List.any_eq_true, beq_iff_eq]
  constructor
  · rintro ⟨kv, hm, he⟩
    exact ⟨kv, hm, by rw [hnorm kv hm, he]⟩
  · rintro ⟨kv, hm, he⟩
    exact ⟨kv, hm, by rw [← hnorm kv hm, he]⟩

/-- C3: registration.  Assuming stored emails are normalized to lower
case, a submitted email is rejected with the already-registered reply (and
the store is unchanged) exactly when some existing profile holds that
email case-insensitively; otherwise (when the store write succeeds) a new
profile is created under the caller identifier with the lower-cased email,
the caller username (defaulted to N/A), and no subjects. -/
theorem c3_get_email_and_register (text user_id : String) (uname : Option String)
    (storeOk : Bool) (s : Session) (st : Store)
    (hnorm : ∀ kv ∈ st, lower (kv.2).email = (kv.2).email) :
    ((∃ kv ∈ st, lower (kv.2).email = lower text) →
      get_email_and_register text user_id uname storeOk s st =
        { session := s, store := st, replies := [Msg.alreadyRegistered],
          ret := HandlerRet.endConv })
  ∧ ((¬ ∃ kv ∈ st, lower (kv.2).email = lower text) → storeOk = true →
      get_email_and_register text user_id uname storeOk s st =
        { session := s,
          store := st.setDoc user_id
            { email := lower text, telegram_username := uname.getD "N/A", subjects := [] },
          replies := [Msg.registrationComplete], ret := HandlerRet.endConv }) := by
  constructor
  · intro hex
    have h : st.existsEmail (lower text) = true := (existsEmail_lower st text hnorm).mpr hex
    simp [get_email_and_register, h]
  · intro hnex hok
    have h : st.existsEmail (lower text) = false := by
      rcases hb : st.existsEmail (lower text) with _ | _
      · rfl
      · exact absurd ((existsEmail_lower st text hnorm).mp hb) hnex
    simp [get_email_and_register, h, hok]

/-- Witness for C3: a fresh mixed-case email against a one-profile store
creates a new lower-cased profile with no subjects. -/
theorem c3_get_email_and_register_witness :
    (∀ kv ∈ ([("1", { email := "a@b.com", telegram_username := "bob", subjects := ["Math"] })] :
        Store), lower (kv.2).email = (kv.2).email)
  ∧ (¬ ∃ kv ∈ ([("1", { email := "a@b.com", telegram_username := "bob", subjects := ["Math"] })] :
        Store), lower (kv.2).email = lower "NEW@B.com")
  ∧ get_email_and_register "NEW@B.com" "7" (some "alice") true {}
      [("1", { email := "a@b.com", telegram_username := "bob", subjects := ["Math"] })] =
      { session := {},
        store := Store.setDoc
          [("1", { email := "a@b.com", telegram_username := "bob", subjects := ["Math"] })] "7"
          { email := lower "NEW@B.com", telegram_username := (some "alice").getD "N/A",
            subjects := [] },
        replies := [Msg.registrationComplete], ret := HandlerRet.endConv } := by
  refine ⟨by decide, by decide, ?_⟩
  exact (c3_get_email_and_register "NEW@B.com" "7" (some "alice") true {}
    [("1", { email := "a@b.com", telegram_username := "bob", subjects := ["Math"] })]
    (by decide)).2 (by decide) rfl

/-- C5: the universal selection dispatcher.  For each of the four action
branches, the returned value is `ConversationHandler.END` exactly when the
session (after the branch ran) holds no selected tutor subject, and the
only other possible return is the continue token `T_ASK_QUESTION`. -/
theorem c5_button_handler_continuation (ev : BtnAction) (user_id quizText : String)
    (s : Session) (st : Store) :
    ((button_handler ev user_id quizText s st).ret = HandlerRet.endConv
      ↔ (button_handler ev user_id quizText s st).session.tutor_subject = none)
  ∧ ((button_handler ev user_id quizText s st).ret = HandlerRet.endConv
      ∨ (button_handler ev user_id quizText s st).ret = HandlerRet.tAskQuestion) := by
  cases ev <;> cases h : s.tutor_subject <;>
    simp [button_handler, h] <;> split <;> simp [h]

/-- `firestore.ArrayUnion` is idempotent on the same element. -/
theorem arrayUnion_idem (l : List String) (d : String) :
    arrayUnion (arrayUnion l d) d = arrayUnion l d := by
  by_cases h : d ∈ l
  · simp [arrayUnion, h]
  · simp [arrayUnion, h]

/-- Two subject updates on the same document compose. -/
theorem updateSubjects_updateSubjects (st : Store) (id : String)
    (f g : List String → List String) :
    (st.updateSubjects id f).updateSubjects id g =
      st.updateSubjects id (fun l => g (f l)) := by
  simp only [Store.updateSubjects, List.map_map]
  congr 1
  funext kv
  by_cases h : (kv.1 == id) = true <;> simp [Function.comp, h]

/-- C9: the add-subject selection is idempotent.  Running the add branch of
`button_handler` a second time with the same subject, from the store the
first run produced, returns exactly the first result: the profile subject
set (and everything else) is unchanged. -/
theorem c9_add_subject_idempotent (d user_id quizText : String) (s : Session) (st : Store) :
    button_handler (BtnAction.add d) user_id quizText s
        ((button_handler (BtnAction.add d) user_id quizText s st).store)
      = button_handler (BtnAction.add d) user_id quizText s st := by
  have hfun : (fun l => arrayUnion (arrayUnion l d) d) = fun l => arrayUnion l d := by
    funext l
    exact arrayUnion_idem l d
  simp [button_handler, updateSubjects_updateSubjects, hfun]

/-- Recording keyboards never touches the session. -/
theorem updatePresented_userData (ms : List Msg) (σ : GState) :
    (updatePresented σ ms).userData = σ.userData := by
  induction ms generalizing σ with
  | nil => rfl
  | cons m tl ih =>
      cases m <;> simpa [updatePresented] using ih _

/-- Recording keyboards never touches the store. -/
theorem updatePresented_store (ms : List Msg) (σ : GState) :
    (updatePresented σ ms).store = σ.store := by
  induction ms generalizing σ with
  | nil => rfl
  | cons m tl ih =>
      cases m <;> simpa [updatePresented] using ih _

/-- Recording keyboards never touches the tutor conversation state. -/
theorem updatePresented_tutorConv (ms : List Msg) (σ : GState) :
    (updatePresented σ ms).tutorConv = σ.tutorConv := by
  induction ms generalizing σ with
  | nil => rfl
  | cons m tl ih =>
      cases m <;> simpa [updatePresented] using ih _

/-- Recording keyboards appends exactly the offered tutor options to the
presented-tutor list. -/
theorem updatePresented_presentedTutor (ms : List Msg) (σ : GState) :
    (updatePresented σ ms).presentedTutor = σ.presentedTutor ++ collectTutorOpts ms := by
  induction ms generalizing σ with
  | nil => simp [updatePresented, collectTutorOpts]
  | cons m tl ih =>
      cases m
      case tutorSubjectPrompt opts =>
        have h := ih { σ with presentedTutor := σ.presentedTutor ++ opts }
        simpa [updatePresented, collectTutorOpts, List.append_assoc] using h
      all_goals simpa [updatePresented, collectTutorOpts] using ih _

/-- Folding in a handler result: the session becomes the handler session. -/
theorem applyH_userData (σ : GState) (r : HResult) :
    (applyH σ r).userData = r.session := by
  simp [applyH, updatePresented_userData]

/-- Folding in a handler result: the store becomes the handler store. -/
theorem applyH_store (σ : GState) (r : HResult) :
    (applyH σ r).store = r.store := by
  simp [applyH, updatePresented_store]

/-- Folding in a handler result leaves the tutor conversation state. -/
theorem applyH_tutorConv (σ : GState) (r : HResult) :
    (applyH σ r).tutorConv = σ.tutorConv := by
  simp [applyH, updatePresented_tutorConv]

/-- Folding in a handler result appends its tutor options. -/
theorem applyH_presentedTutor (σ : GState) (r : HResult) :
    (applyH σ r).presentedTutor = σ.presentedTutor ++ collectTutorOpts r.replies := by
  simp [applyH, updatePresented_presentedTutor]

/-- C4 (the `/done` handler itself is absent from src/main.py and is
modelled from the spec): in every active state of the tutor flow, the
termination command clears the stored chat handle and the selected subject,
returns the flow to idle, and replies the confirmation that restores the
main menu. -/
theorem c4_done_ends_tutor_flow (user_id : String) (uname : Option String) (σ : GState)
    (h : σ.tutorConv ≠ TutorState.idle) :
    (step user_id uname σ Event.doneCmd).1.tutorConv = TutorState.idle
  ∧ (step user_id uname σ Event.doneCmd).1.userData.tutor_subject = none
  ∧ (step user_id uname σ Event.doneCmd).1.userData.chat_session = none
  ∧ (step user_id uname σ Event.doneCmd).2 = [Msg.doneConfirm] := by
  simp [step, h, end_tutor_session, applyH_userData, updatePresented_userData]

/-- Witness for C4 in the tutoring state. -/
theorem c4_done_ends_tutor_flow_witness :
    ({ GState.init with tutorConv := TutorState.tutoring, userData := { is_logged_in := true, tutor_subject := some "Math", chat_session := some 0 } } : GState).tutorConv ≠ TutorState.idle
  ∧ (step "7" none { GState.init with tutorConv := TutorState.tutoring, userData := { is_logged_in := true, tutor_subject := some "Math", chat_session := some 0 } } Event.doneCmd).1.tutorConv = TutorState.idle
  ∧ (step "7" none { GState.init with tutorConv := TutorState.tutoring, userData := { is_logged_in := true, tutor_subject := some "Math", chat_session := some 0 } } Event.doneCmd).1.userData.tutor_subject = none
  ∧ (step "7" none { GState.init with tutorConv := TutorState.tutoring, userData := { is_logged_in := true, tutor_subject := some "Math", chat_session := some 0 } } Event.doneCmd).1.userData.chat_session = none
  ∧ (step "7" none { GState.init with tutorConv := TutorState.tutoring, userData := { is_logged_in := true, tutor_subject := some "Math", chat_session := some 0 } } Event.doneCmd).2 = [Msg.doneConfirm] := by
  have h := c4_done_ends_tutor_flow "7" none { GState.init with tutorConv := TutorState.tutoring, userData := { is_logged_in := true, tutor_subject := some "Math", chat_session := some 0 } } (by decide)
  exact ⟨by decide, h.1, h.2.1, h.2.2.1, h.2.2.2⟩

/-- C10: the universal selection dispatcher is registered without the
authentication gate, so for add-subject, remove-subject and quiz selection
events two runs that differ only in the session authenticated flag perform
the same store mutation, emit the same replies, and end in states that
again differ only in that flag. -/
theorem c10_button_handler_ignores_auth (user_id : String) (uname : Option String)
    (σ : GState) (e : Event) (d qt : String)
    (he : e = Event.clickAdd d ∨ e = Event.clickRemove d ∨ e = Event.clickQuiz d qt) :
    (step user_id uname
        { σ with userData := { σ.userData with is_logged_in := true } } e).1.store =
      (step user_id uname
        { σ with userData := { σ.userData with is_logged_in := false } } e).1.store
  ∧ (step user_id uname
        { σ with userData := { σ.userData with is_logged_in := true } } e).2 =
      (step user_id uname
        { σ with userData := { σ.userData with is_logged_in := false } } e).2
  ∧ (step user_id uname
        { σ with userData := { σ.userData with is_logged_in := true } } e).1 =
      { (step user_id uname
          { σ with userData := { σ.userData with is_logged_in := false } } e).1 with
        userData := { (step user_id uname
          { σ with userData := { σ.userData with is_logged_in := false } } e).1.userData with
            is_logged_in := true } } := by
  rcases he with rfl | rfl | rfl
  · by_cases hm : d ∈ σ.presentedAdd <;>
      simp [step, hm, button_handler, applyH, updatePresented]
  · by_cases hm : d ∈ σ.presentedRemove <;>
      by_cases hemp :
        (get_user_subjects user_id
          (σ.store.updateSubjects user_id fun subs => arrayRemove subs d)).isEmpty <;>
      simp [step, hm, hemp, button_handler, applyH, updatePresented]
  · by_cases hm : d ∈ σ.presentedQuiz <;>
      simp [step, hm, button_handler, applyH, updatePresented]

/-- Witness for C10 at a concrete add click. -/
theorem c10_button_handler_ignores_auth_witness :
    ((Event.clickAdd "Math" : Event) = Event.clickAdd "Math"
      ∨ (Event.clickAdd "Math" : Event) = Event.clickRemove "Math"
      ∨ (Event.clickAdd "Math" : Event) = Event.clickQuiz "Math" "q")
  ∧ (step "7" none
        { userData := { is_logged_in := true }, store := [], regConv := false,
          loginConv := false, tutorConv := TutorState.idle, presentedAdd := ["Math"],
          presentedRemove := [], presentedTutor := [], presentedQuiz := [] }
        (Event.clickAdd "Math")).1.store =
      (step "7" none
        { userData := { is_logged_in := false }, store := [], regConv := false,
          loginConv := false, tutorConv := TutorState.idle, presentedAdd := ["Math"],
          presentedRemove := [], presentedTutor := [], presentedQuiz := [] }
        (Event.clickAdd "Math")).1.store := by
  have h := c10_button_handler_ignores_auth "7" none
    { GState.init with presentedAdd := ["Math"] } (Event.clickAdd "Math") "Math" "q"
    (Or.inl rfl)
  exact ⟨Or.inl rfl, h.1⟩

/-! Helper facts: which handlers offer tutor keyboards, and how handlers
change the session, feeding the reachability invariants behind C8. -/

theorem collect_start_command (uid : String) (s : Session) (st : Store) :
    collectTutorOpts (start_command uid s st).replies = [] := by
  dsimp only [start_command]
  split
  · rfl
  · split <;> rfl

theorem collect_logout_command (s : Session) (st : Store) :
    collectTutorOpts (logout_command s st).replies = [] := rfl

theorem collect_start_registration (s : Session) (st : Store) :
    collectTutorOpts (start_registration s st).replies = [] := rfl

theorem collect_start_login (s : Session) (st : Store) :
    collectTutorOpts (start_login s st).replies = [] := by
  dsimp only [start_login]
  split <;> rfl

theorem collect_cancel_conversation (s : Session) (st : Store) :
    collectTutorOpts (cancel_conversation s st).replies = [] := by
  dsimp only [cancel_conversation]
  split <;> rfl

theorem collect_get_email_and_register (text uid : String) (uname : Option String)
    (ok : Bool) (s : Session) (st : Store) :
    collectTutorOpts (get_email_and_register text uid uname ok s st).replies = [] := by
  dsimp only [get_email_and_register]
  split
  · rfl
  · split <;> rfl

theorem collect_check_email_and_login (text uid : String) (s : Session) (st : Store) :
    collectTutorOpts (check_email_and_login text uid s st).replies = [] := by
  dsimp only [check_email_and_login]
  split
  · split <;> rfl
  · rfl

theorem collect_my_subjects_command (uid : String) (s : Session) (st : Store) :
    collectTutorOpts (my_subjects_command uid s st).replies = [] := by
  dsimp only [my_subjects_command]
  split <;> rfl

theorem collect_add_subject_command (uid : String) (s : Session) (st : Store) :
    collectTutorOpts (add_subject_command uid s st).replies = [] := by
  dsimp only [add_subject_command]
  split <;> rfl

theorem collect_quiz_me_command (uid : String) (s : Session) (st : Store) :
    collectTutorOpts (quiz_me_command uid s st).replies = [] := by
  dsimp only [quiz_me_command]
  split <;> rfl

theorem collect_start_ai_conversation (a : Option Nat) (b : Option String)
    (text : String) (s : Session) (st : Store) :
    collectTutorOpts (start_ai_conversation a b text s st).replies = [] := by
  dsimp only [start_ai_conversation]
  split
  · rfl
  · split <;> rfl

theorem collect_forward_to_ai (b : Option String) (text : String) (s : Session) (st : Store) :
    collectTutorOpts (forward_to_ai b text s st).replies = [] := by
  dsimp only [forward_to_ai]
  split <;> rfl

theorem collect_end_tutor_session (s : Session) (st : Store) :
    collectTutorOpts (end_tutor_session s st).replies = [] := rfl

theorem collect_button_handler (ev : BtnAction) (uid qt : String) (s : Session) (st : Store) :
    collectTutorOpts (button_handler ev uid qt s st).replies = [] := by
  cases ev <;> dsimp only [button_handler] <;> try rfl
  split <;> rfl

/-- Only the gated tutor entry offers a tutor keyboard, and only with the
caller subjects of the moment. -/
theorem collect_gated_tutor_entry (uid : String) (s : Session) (st : Store) :
    ∀ x ∈ collectTutorOpts (login_required (start_tutor_session uid) s st).replies,
      x ∈ get_user_subjects uid st := by
  dsimp only [login_required, start_tutor_session]
  split
  · split
    · intro x hx
      simp [collectTutorOpts] at hx
    · intro x hx
      simpa [collectTutorOpts] using hx
  · intro x hx
    simp [collectTutorOpts] at hx

/-- The gate offers no keyboard of its own: with any wrapped handler whose
replies offer no tutor options, the gated result offers none. -/
theorem collect_login_required (f : Session → Store → HResult) (s : Session) (st : Store)
    (h : collectTutorOpts (f s st).replies = []) :
    collectTutorOpts (login_required f s st).replies = [] := by
  dsimp only [login_required]
  split
  · exact h
  · rfl

theorem tsub_start_command (uid : String) (s : Session) (st : Store) :
    (start_command uid s st).session.tutor_subject = s.tutor_subject := by
  dsimp only [start_command]
  split
  · rfl
  · split <;> rfl

theorem tsub_start_login (s : Session) (st : Store) :
    (start_login s st).session.tutor_subject = s.tutor_subject := by
  dsimp only [start_login]
  split <;> rfl

theorem tsub_cancel_conversation (s : Session) (st : Store) :
    (cancel_conversation s st).session.tutor_subject = s.tutor_subject := by
  dsimp only [cancel_conversation]
  split <;> rfl

theorem tsub_get_email_and_register (text uid : String) (uname : Option String)
    (ok : Bool) (s : Session) (st : Store) :
    (get_email_and_register text uid uname ok s st).session.tutor_subject = s.tutor_subject := by
  dsimp only [get_email_and_register]
  split
  · rfl
  · split <;> rfl

theorem tsub_check_email_and_login (text uid : String) (s : Session) (st : Store) :
    (check_email_and_login text uid s st).session.tutor_subject = s.tutor_subject := by
  dsimp only [check_email_and_login]
  split
  · split <;> rfl
  · rfl

theorem tsub_my_subjects_command (uid : String) (s : Session) (st : Store) :
    (my_subjects_command uid s st).session.tutor_subject = s.tutor_subject := by
  dsimp only [my_subjects_command]
  split <;> rfl

theorem tsub_add_subject_command (uid : String) (s : Session) (st : Store) :
    (add_subject_command uid s st).session.tutor_subject = s.tutor_subject := by
  dsimp only [add_subject_command]
  split <;> rfl

theorem tsub_quiz_me_command (uid : String) (s : Session) (st : Store) :
    (quiz_me_command uid s st).session.tutor_subject = s.tutor_subject := by
  dsimp only [quiz_me_command]
  split <;> rfl

theorem tsub_start_tutor_session (uid : String) (s : Session) (st : Store) :
    (start_tutor_session uid s st).session.tutor_subject = s.tutor_subject := by
  dsimp only [start_tutor_session]
  split <;> rfl

theorem tsub_start_ai_conversation (a : Option Nat) (b : Option String) (text : String)
    (s : Session) (st : Store) :
    (start_ai_conversation a b text s st).session.tutor_subject = s.tutor_subject := by
  dsimp only [start_ai_conversation]
  split
  · rfl
  · split <;> rfl

theorem tsub_forward_to_ai (b : Option String) (text : String) (s : Session) (st : Store) :
    (forward_to_ai b text s st).session.tutor_subject = s.tutor_subject := by
  dsimp only [forward_to_ai]
  split <;> rfl

theorem tsub_login_required (f : Session → Store → HResult) (s : Session) (st : Store)
    (hf : (f s st).session.tutor_subject = s.tutor_subject) :
    (login_required f s st).session.tutor_subject = s.tutor_subject := by
  dsimp only [login_required]
  split
  · exact hf
  · rfl

/-- Splitting membership in the tutor options recorded by a handler
result. -/
theorem mem_applyH_cases (σ : GState) (r : HResult) (x : String)
    (hx : x ∈ (applyH σ r).presentedTutor) :
    x ∈ σ.presentedTutor ∨ x ∈ collectTutorOpts r.replies := by
  rw [applyH_presentedTutor] at hx
  exact List.mem_append.mp hx

/-- A handler offering no tutor options leaves the presented list. -/
theorem mem_applyH_of_collect_nil (σ : GState) (r : HResult) (x : String)
    (hc : collectTutorOpts r.replies = [])
    (hx : x ∈ (applyH σ r).presentedTutor) : x ∈ σ.presentedTutor := by
  rcases mem_applyH_cases σ r x hx with h | h
  · exact h
  · rw [hc] at h
    exact absurd h (List.not_mem_nil x)

/-- One step can present new tutor options only from the caller profile
subject list of the moment. -/
theorem step_presentedTutor_mem (uid : String) (uname : Option String) (σ : GState)
    (e : Event) (x : String)
    (hx : x ∈ (step uid uname σ e).1.presentedTutor) :
    x ∈ σ.presentedTutor ∨ x ∈ get_user_subjects uid σ.store := by
  cases e with
  | startCmd =>
      exact Or.inl (mem_applyH_of_collect_nil σ (start_command uid σ.userData σ.store) x
        (collect_start_command uid _ _) hx)
  | logoutCmd =>
      exact Or.inl (mem_applyH_of_collect_nil σ (logout_command σ.userData σ.store) x
        (collect_logout_command _ _) hx)
  | registerCmd =>
      dsimp only [step] at hx
      split at hx
      · exact Or.inl hx
      · exact Or.inl (mem_applyH_of_collect_nil σ (start_registration σ.userData σ.store) x
          (collect_start_registration _ _) hx)
  | loginCmd =>
      dsimp only [step] at hx
      split at hx
      · exact Or.inl hx
      · exact Or.inl (mem_applyH_of_collect_nil σ (start_login σ.userData σ.store) x
          (collect_start_login _ _) hx)
  | cancelCmd =>
      dsimp only [step] at hx
      split at hx
      · exact Or.inl (mem_applyH_of_collect_nil σ (cancel_conversation σ.userData σ.store) x
          (collect_cancel_conversation _ _) hx)
      · split at hx
        · exact Or.inl (mem_applyH_of_collect_nil σ (cancel_conversation σ.userData σ.store) x
            (collect_cancel_conversation _ _) hx)
        · exact Or.inl hx
  | mySubjectsCmd =>
      exact Or.inl (mem_applyH_of_collect_nil σ
        (login_required (my_subjects_command uid) σ.userData σ.store) x
        (collect_login_required _ _ _ (collect_my_subjects_command uid _ _)) hx)
  | addSubjectCmd =>
      exact Or.inl (mem_applyH_of_collect_nil σ
        (login_required (add_subject_command uid) σ.userData σ.store) x
        (collect_login_required _ _ _ (collect_add_subject_command uid _ _)) hx)
  | quizMeCmd =>
      exact Or.inl (mem_applyH_of_collect_nil σ
        (login_required (quiz_me_command uid) σ.userData σ.store) x
        (collect_login_required _ _ _ (collect_quiz_me_command uid _ _)) hx)
  | tutorCmd =>
      dsimp only [step] at hx
      split at hx
      · rcases mem_applyH_cases σ
          (login_required (start_tutor_session uid) σ.userData σ.store) x hx with hL | hR
        · exact Or.inl hL
        · exact Or.inr (collect_gated_tutor_entry uid σ.userData σ.store x hR)
      · exact Or.inl hx
  | doneCmd =>
      dsimp only [step] at hx
      split at hx
      · exact Or.inl hx
      · exact Or.inl (mem_applyH_of_collect_nil σ (end_tutor_session σ.userData σ.store) x
          (collect_end_tutor_session _ _) hx)
  | textMsg text ok a b =>
      dsimp only [step] at hx
      split at hx
      · exact Or.inl (mem_applyH_of_collect_nil σ
          (get_email_and_register text uid uname ok σ.userData σ.store) x
          (collect_get_email_and_register text uid uname ok _ _) hx)
      · split at hx
        · exact Or.inl (mem_applyH_of_collect_nil σ
            (check_email_and_login text uid σ.userData σ.store) x
            (collect_check_email_and_login text uid _ _) hx)
        · split at hx
          · split at hx
            · rcases mem_applyH_cases σ
                (login_required (start_tutor_session uid) σ.userData σ.store) x hx with hL | hR
              · exact Or.inl hL
              · exact Or.inr (collect_gated_tutor_entry uid σ.userData σ.store x hR)
            · split at hx
              · exact Or.inl (mem_applyH_of_collect_nil σ
                  (login_required (my_subjects_command uid) σ.userData σ.store) x
                  (collect_login_required _ _ _ (collect_my_subjects_command uid _ _)) hx)
              · split at hx
                · exact Or.inl (mem_applyH_of_collect_nil σ
                    (login_required (add_subject_command uid) σ.userData σ.store) x
                    (collect_login_required _ _ _ (collect_add_subject_command uid _ _)) hx)
                · split at hx
                  · exact Or.inl (mem_applyH_of_collect_nil σ
                      (login_required (quiz_me_command uid) σ.userData σ.store) x
                      (collect_login_required _ _ _ (collect_quiz_me_command uid _ _)) hx)
                  · exact Or.inl hx
          · split at hx
            · exact Or.inl (mem_applyH_of_collect_nil σ
                (login_required (my_subjects_command uid) σ.userData σ.store) x
                (collect_login_required _ _ _ (collect_my_subjects_command uid _ _)) hx)
            · split at hx
              · exact Or.inl (mem_applyH_of_collect_nil σ
                  (login_required (add_subject_command uid) σ.userData σ.store) x
                  (collect_login_required _ _ _ (collect_add_subject_command uid _ _)) hx)
              · split at hx
                · exact Or.inl (mem_applyH_of_collect_nil σ
                    (login_required (quiz_me_command uid) σ.userData σ.store) x
                    (collect_login_required _ _ _ (collect_quiz_me_command uid _ _)) hx)
                · exact Or.inl hx
          · exact Or.inl (mem_applyH_of_collect_nil σ
              (start_ai_conversation a b text σ.userData σ.store) x
              (collect_start_ai_conversation a b text _ _) hx)
          · exact Or.inl (mem_applyH_of_collect_nil σ
              (forward_to_ai b text σ.userData σ.store) x
              (collect_forward_to_ai b text _ _) hx)
  | clickAdd data =>
      dsimp only [step] at hx
      split at hx
      · exact Or.inl (mem_applyH_of_collect_nil σ
          (button_handler (BtnAction.add data) uid "" σ.userData σ.store) x
          (collect_button_handler (BtnAction.add data) uid _ _ _) hx)
      · exact Or.inl hx
  | clickRemove data =>
      dsimp only [step] at hx
      split at hx
      · exact Or.inl (mem_applyH_of_collect_nil σ
          (button_handler (BtnAction.remove data) uid "" σ.userData σ.store) x
          (collect_button_handler (BtnAction.remove data) uid _ _ _) hx)
      · exact Or.inl hx
  | clickTutor data =>
      dsimp only [step] at hx
      split at hx
      · exact Or.inl (mem_applyH_of_collect_nil σ
          (button_handler (BtnAction.tutor data) uid "" σ.userData σ.store) x
          (collect_button_handler (BtnAction.tutor data) uid _ _ _) hx)
      · exact Or.inl hx
  | clickQuiz data qt =>
      dsimp only [step] at hx
      split at hx
      · exact Or.inl (mem_applyH_of_collect_nil σ
          (button_handler (BtnAction.quiz data) uid qt σ.userData σ.store) x
          (collect_button_handler (BtnAction.quiz data) uid qt _ _) hx)
      · exact Or.inl hx

/-- Lifting the session invariant across a handler that keeps the selected
subject. -/
theorem applyH_inv (σ : GState) (r : HResult)
    (hsess : r.session.tutor_subject = σ.userData.tutor_subject)
    (h : TutorSubjectPresented σ) :
    ∀ subj, (applyH σ r).userData.tutor_subject = some subj →
      subj ∈ (applyH σ r).presentedTutor := by
  intro subj hsubj
  rw [applyH_userData, hsess] at hsubj
  rw [applyH_presentedTutor]
  exact List.mem_append_left _ (h subj hsubj)

/-- Lifting the session invariant across a handler that clears the selected
subject. -/
theorem applyH_inv_none (σ : GState) (r : HResult)
    (hsess : r.session.tutor_subject = none) :
    ∀ subj, (applyH σ r).userData.tutor_subject = some subj →
      subj ∈ (applyH σ r).presentedTutor := by
  intro subj hsubj
  rw [applyH_userData, hsess] at hsubj
  cases hsubj

/-- One step preserves the invariant: a recorded selected tutor subject was
offered on some tutor keyboard. -/
theorem step_preserves_TutorSubjectPresented (uid : String) (uname : Option String)
    (σ : GState) (e : Event) (h : TutorSubjectPresented σ) :
    TutorSubjectPresented (step uid uname σ e).1 := by
  cases e with
  | startCmd =>
      exact applyH_inv σ (start_command uid σ.userData σ.store)
        (tsub_start_command uid _ _) h
  | logoutCmd =>
      exact applyH_inv_none σ (logout_command σ.userData σ.store) rfl
  | registerCmd =>
      dsimp only [step]
      split
      · exact h
      · exact applyH_inv σ (start_registration σ.userData σ.store) rfl h
  | loginCmd =>
      dsimp only [step]
      split
      · exact h
      · exact applyH_inv σ (start_login σ.userData σ.store) (tsub_start_login _ _) h
  | cancelCmd =>
      dsimp only [step]
      split
      · exact applyH_inv σ (cancel_conversation σ.userData σ.store)
          (tsub_cancel_conversation _ _) h
      · split
        · exact applyH_inv σ (cancel_conversation σ.userData σ.store)
            (tsub_cancel_conversation _ _) h
        · exact h
  | mySubjectsCmd =>
      exact applyH_inv σ (login_required (my_subjects_command uid) σ.userData σ.store)
        (tsub_login_required _ _ _ (tsub_my_subjects_command uid _ _)) h
  | addSubjectCmd =>
      exact applyH_inv σ (login_required (add_subject_command uid) σ.userData σ.store)
        (tsub_login_required _ _ _ (tsub_add_subject_command uid _ _)) h
  | quizMeCmd =>
      exact applyH_inv σ (login_required (quiz_me_command uid) σ.userData σ.store)
        (tsub_login_required _ _ _ (tsub_quiz_me_command uid _ _)) h
  | tutorCmd =>
      dsimp only [step]
      split
      · exact applyH_inv σ (login_required (start_tutor_session uid) σ.userData σ.store)
          (tsub_login_required _ _ _ (tsub_start_tutor_session uid _ _)) h
      · exact h
  | doneCmd =>
      dsimp only [step]
      split
      · exact h
      · exact applyH_inv_none σ (end_tutor_session σ.userData σ.store) rfl
  | textMsg text ok a b =>
      dsimp only [step]
      split
      · exact applyH_inv σ (get_email_and_register text uid uname ok σ.userData σ.store)
          (tsub_get_email_and_register text uid uname ok _ _) h
      · split
        · exact applyH_inv σ (check_email_and_login text uid σ.userData σ.store)
            (tsub_check_email_and_login text uid _ _) h
        · split
          · split
            · exact applyH_inv σ
                (login_required (start_tutor_session uid) σ.userData σ.store)
                (tsub_login_required _ _ _ (tsub_start_tutor_session uid _ _)) h
            · split
              · exact applyH_inv σ
                  (login_required (my_subjects_command uid) σ.userData σ.store)
                  (tsub_login_required _ _ _ (tsub_my_subjects_command uid _ _)) h
              · split
                · exact applyH_inv σ
                    (login_required (add_subject_command uid) σ.userData σ.store)
                    (tsub_login_required _ _ _ (tsub_add_subject_command uid _ _)) h
                · split
                  · exact applyH_inv σ
                      (login_required (quiz_me_command uid) σ.userData σ.store)
                      (tsub_login_required _ _ _ (tsub_quiz_me_command uid _ _)) h
                  · exact h
          · split
            · exact applyH_inv σ
                (login_required (my_subjects_command uid) σ.userData σ.store)
                (tsub_login_required _ _ _ (tsub_my_subjects_command uid _ _)) h
            · split
              · exact applyH_inv σ
                  (login_required (add_subject_command uid) σ.userData σ.store)
                  (tsub_login_required _ _ _ (tsub_add_subject_command uid _ _)) h
              · split
                · exact applyH_inv σ
                    (login_required (quiz_me_command uid) σ.userData σ.store)
                    (tsub_login_required _ _ _ (tsub_quiz_me_command uid _ _)) h
                · exact h
          · exact applyH_inv σ (start_ai_conversation a b text σ.userData σ.store)
              (tsub_start_ai_conversation a b text _ _) h
          · exact applyH_inv σ (forward_to_ai b text σ.userData σ.store)
              (tsub_forward_to_ai b text _ _) h
  | clickAdd data =>
      dsimp only [step]
      split
      · exact applyH_inv σ (button_handler (BtnAction.add data) uid "" σ.userData σ.store)
          rfl h
      · exact h
  | clickRemove data =>
      dsimp only [step]
      split
      · dsimp only [button_handler]
        split
        · exact applyH_inv σ _ rfl h
        · exact applyH_inv σ _ rfl h
      · exact h
  | clickTutor data =>
      dsimp only [step]
      split
      · next hg =>
          intro subj hsubj
          have hd : some data = some subj := by
            rw [applyH_userData] at hsubj
            exact hsubj
          cases hd
          rw [applyH_presentedTutor]
          exact List.mem_append_left _ hg.2
      · exact h
  | clickQuiz data qt =>
      dsimp only [step]
      split
      · exact applyH_inv σ (button_handler (BtnAction.quiz data) uid qt σ.userData σ.store)
          rfl h
      · exact h

/-- Running a trace extended by one event steps the final state once. -/
theorem run_append (uid : String) (uname : Option String) (σ : GState)
    (tr : List Event) (e : Event) :
    run uid uname σ (tr ++ [e]) = (step uid uname (run uid uname σ tr) e).1 := by
  simp [run, List.foldl_append]

/-- Every reachable state satisfies the invariant: a recorded selected
tutor subject was offered on some tutor keyboard. -/
theorem run_TutorSubjectPresented (uid : String) (uname : Option String) (tr : List Event) :
    TutorSubjectPresented (run uid uname GState.init tr) := by
  induction tr using List.reverseRecOn with
  | nil =>
      intro subj h
      cases h
  | append_singleton tl e ih =>
      rw [run_append]
      exact step_preserves_TutorSubjectPresented uid uname _ e ih

/-- Every subject ever offered on a tutor keyboard was a member of the
caller profile subject set at the moment of some prefix of the trace. -/
theorem run_presentedTutor_history (uid : String) (uname : Option String) (tr : List Event) :
    ∀ x ∈ (run uid uname GState.init tr).presentedTutor,
      ∃ i, i ≤ tr.length
        ∧ x ∈ get_user_subjects uid (run uid uname GState.init (tr.take i)).store := by
  induction tr using List.reverseRecOn with
  | nil =>
      intro x hx
      cases hx
  | append_singleton tl e ih =>
      intro x hx
      rw [run_append] at hx
      rcases step_presentedTutor_mem uid uname _ e x hx with hL | hR
      · rcases ih x hL with ⟨i, hi, hmem⟩
        refine ⟨i, le_trans hi (by simp), ?_⟩
        rwa [List.take_append_of_le_length hi]
      · refine ⟨tl.length, by simp, ?_⟩
        rw [List.take_append_of_le_length (le_refl tl.length), List.take_length]
        exact hR

/-- Counterexample to C8 as stated: a reachable interaction in which the
flow enters the question-answering state while the recorded selected
subject is no longer a member of the caller profile subject set.  The user
registers, logs in, adds Math and Physics, opens the tutor keyboard, then
removes Math through the still-clickable removal keyboard, and finally
clicks the stale tutor button for Math. -/
theorem c8_membership_counterexample :
    (run "7" (some "alice") GState.init staleTutorClickTrace).tutorConv = TutorState.askQuestion
  ∧ (run "7" (some "alice") GState.init staleTutorClickTrace).userData.tutor_subject = some "Math"
  ∧ "Math" ∉ get_user_subjects "7"
      (run "7" (some "alice") GState.init staleTutorClickTrace).store := by
  refine ⟨by decide, by decide, by decide⟩

/-- C8 amended: whenever a reachable session is in the tutoring
question-answering state, the recorded selected subject was a member of the
caller profile subject set at the moment the tutor options were presented —
that is, at some prefix of the interaction — though not necessarily any
more, since a remove-subject selection can intervene between presentation
and selection. -/
theorem c8_selected_subject_was_presented (uid : String) (uname : Option String)
    (tr : List Event) (subj : String)
    (hq : (run uid uname GState.init tr).tutorConv = TutorState.askQuestion)
    (hs : (run uid uname GState.init tr).userData.tutor_subject = some subj) :
    ∃ i, i ≤ tr.length
      ∧ subj ∈ get_user_subjects uid (run uid uname GState.init (tr.take i)).store :=
  run_presentedTutor_history uid uname tr subj
    (run_TutorSubjectPresented uid uname tr subj hs)

/-- Witness for the amended C8 on a benign trace that reaches the
question-answering state. -/
theorem c8_selected_subject_was_presented_witness :
    (run "7" (some "alice") GState.init freshTutorClickTrace).tutorConv = TutorState.askQuestion
  ∧ (run "7" (some "alice") GState.init freshTutorClickTrace).userData.tutor_subject = some "Math"
  ∧ ∃ i, i ≤ freshTutorClickTrace.length
      ∧ "Math" ∈ get_user_subjects "7"
          (run "7" (some "alice") GState.init (freshTutorClickTrace.take i)).store := by
  refine ⟨by decide, by decide, ?_⟩
  exact c8_selected_subject_was_presented "7" (some "alice") freshTutorClickTrace "Math"
    (by decide) (by decide)

end AiTutorBot
